import Mathlib

/-!
Shallow embedding of the lesson-generation service of this repository.

Source files embedded:
  * `src/supabase/functions/generate-lesson/index.ts` — the primary
    generation handler (with Pexels image search), embedded as `handlerMain`
    together with its helper `fetchImagesFromPexels`.
  * `src/unnamed/part_000` — the second, near-duplicate handler variant
    (no image search), embedded as `handlerAlt`.
  * The `fetchLesson` read of the presentation-layer page component
    (`LessonPage` in `src/unnamed/part_000`'s third document), embedded as
    `fetchLesson`.

Modelling conventions:
  * The external world (Gemini HTTP call, Pexels HTTP call, the result of
    each Supabase update) is an oracle passed as explicit arguments; the
    handler is a pure function from the request, the environment and these
    oracles to an HTTP response together with the ordered list of store
    write attempts it performed.
  * A lesson row is the single row targeted by `.eq('id', lessonId)`;
    applying the write trace to an initial row yields the final row.
  * JS truthiness on the string-typed fields (`!lessonId`, `!outline`,
    `!generatedContent`, `!geminiKey`, `pexelsKey` guard) is modelled by
    `truthy : Option String → Bool` (absent or empty string is falsy).
  * `outline.substring(0, 100)` is modelled as `String.take` (code-unit vs
    code-point truncation is not distinguished), `.trim()` as `String.trim`.
  * Per the WHATWG fetch specification a request body can be consumed only
    once: the first `await req.json()` in the `try` block disturbs the body
    (whether or not the parse succeeds), so the second `await req.json()`
    in the `catch` block always rejects and its
    `.catch(() => ({ lessonId: null }))` fallback always fires. This is
    recorded in `consumedBodyReparse`.
-/

/-- A lesson row as described by the migrations and used by the handlers:
`image_urls` and `quiz_data` default to empty sequences. -/
structure LessonRow where
  id : String
  outline : String
  title : Option String
  content : Option String
  status : String
  error_message : Option String
  image_urls : List String
  quiz_data : List String
  created_at : Nat
  deriving Repr, DecidableEq

/-- A point-update patch: `some v` means the update object carries that
column, `none` means the column is absent from the update object and is
left untouched by the store. All columns of the row appear here so that
frame properties (which columns a write can touch) are meaningful. -/
structure LessonPatch where
  id : Option String
  outline : Option String
  title : Option String
  content : Option String
  status : Option String
  error_message : Option String
  image_urls : Option (List String)
  quiz_data : Option (List String)
  created_at : Option Nat
  deriving Repr, DecidableEq

/-- The empty patch (an update object with no keys). -/
def emptyPatch : LessonPatch :=
  { id := none, outline := none, title := none, content := none,
    status := none, error_message := none, image_urls := none,
    quiz_data := none, created_at := none }

/-- One `supabase.from('lessons').update(patch).eq('id', targetId)` call:
`ok` records whether the store accepted it (the destructured `error` was
null). A failed update persists nothing. -/
structure WriteAttempt where
  targetId : String
  patch : LessonPatch
  ok : Bool
  deriving Repr, DecidableEq

/-- Apply a patch to a row (each carried column overwrites the field). -/
def applyPatch (r : LessonRow) (p : LessonPatch) : LessonRow :=
  { id := p.id.getD r.id,
    outline := p.outline.getD r.outline,
    title := match p.title with | some t => some t | none => r.title,
    content := match p.content with | some c => some c | none => r.content,
    status := p.status.getD r.status,
    error_message := match p.error_message with
      | some m => some m | none => r.error_message,
    image_urls := p.image_urls.getD r.image_urls,
    quiz_data := p.quiz_data.getD r.quiz_data,
    created_at := p.created_at.getD r.created_at }

/-- Apply one write attempt: it changes the row only when the store accepted
it and the `.eq('id', _)` filter matches the row. -/
def applyWrite (r : LessonRow) (w : WriteAttempt) : LessonRow :=
  if w.ok ∧ r.id = w.targetId then applyPatch r w.patch else r

/-- Run a whole write trace over an initial row. -/
def runWrites (r : LessonRow) (ws : List WriteAttempt) : LessonRow :=
  ws.foldl applyWrite r

/-- The row as created before the handler runs: `status = generating`,
empty `image_urls` and `quiz_data`, no title/content/error. -/
def initialRow (lid outline : String) (t : Nat) : LessonRow :=
  { id := lid, outline := outline, title := none, content := none,
    status := "generating", error_message := none, image_urls := [],
    quiz_data := [], created_at := t }

/-- JS truthiness of an optional string field: absent or `""` is falsy. -/
def truthy : Option String → Bool
  | none => false
  | some s => !s.isEmpty

/-- `Response.ok` of the fetch API: status in the range 200–299. -/
def isOkStatus (s : Nat) : Bool := 200 ≤ s && s < 300

/-- The environment (`Deno.env.get`) as read by the handlers. -/
structure Env where
  supabaseUrl : Option String
  supabaseKey : Option String
  geminiKey : Option String
  pexelsKey : Option String
  deriving Repr, DecidableEq

/-- Body of a Gemini HTTP reply, as far as the handler inspects it:
either `.json()` rejects, or it yields a document whose
`candidates?.[0]?.content?.parts?.[0]?.text` optional chain produces
`text` (absent chain modelled as `none`; note the handler's `!generated`
check also rejects an empty string). -/
inductive GeminiBody where
  | malformed (msg : String)
  | parsed (text : Option String)
  deriving Repr, DecidableEq

/-- Outcome of the Gemini fetch: the promise rejects (network error with
message `msg`), or an HTTP reply with a status and a body arrives. -/
inductive GeminiOutcome where
  | netErr (msg : String)
  | reply (status : Nat) (body : GeminiBody)
  deriving Repr, DecidableEq

/-- Body of a Pexels HTTP reply: `.json()` rejects (or the
`photo.src.large` projection throws), or it yields a document whose
`photos?.map(p => p.src.large)` produces `urls` (`none` when `photos` is
absent, in which case `|| []` supplies the empty list). -/
inductive PexelsBody where
  | malformed (msg : String)
  | photos (urls : Option (List String))
  deriving Repr, DecidableEq

/-- Outcome of the Pexels fetch. -/
inductive PexelsOutcome where
  | netErr (msg : String)
  | reply (status : Nat) (body : PexelsBody)
  deriving Repr, DecidableEq

/-- `outline.split(' ').slice(0, 3).join(' ')` — the image search query. -/
def pexelsQuery (outline : String) : String :=
  String.intercalate " " ((outline.splitOn " ").take 3)

/-- Embedding of `fetchImagesFromPexels` from
`src/supabase/functions/generate-lesson/index.ts` (lines 14–36): any
failure — rejected fetch, non-2xx status, unparseable body, missing
`photos` field — degrades to `[]`; the query string does not influence the
modelled outcome. -/
def fetchImagesFromPexels (searchQuery : String) (o : PexelsOutcome) :
    List String :=
  match o with
  | .netErr _ => []
  | .reply status body =>
    if !isOkStatus status then []
    else
      match body with
      | .malformed _ => []
      | .photos none => []
      | .photos (some urls) =>
        let _ := searchQuery
        urls

/-- The parsed request body: `req.json()` rejects (`malformed`), or yields
an object whose `lessonId` / `outline` properties are the given optional
strings. -/
inductive ReqBody where
  | malformed (msg : String)
  | fields (lessonId : Option String) (outline : Option String)
  deriving Repr, DecidableEq

/-- The three permissive cross-origin headers defined at the top of both
handler files. -/
def corsHeaders : List (String × String) :=
  [("Access-Control-Allow-Origin", "*"),
   ("Access-Control-Allow-Methods", "GET, POST, PUT, DELETE, OPTIONS"),
   ("Access-Control-Allow-Headers",
     "Content-Type, Authorization, X-Client-Info, Apikey")]

/-- The body of a handler response, after `JSON.stringify`. -/
inductive RespBody where
  | errorMsg (msg : String)
  | success (lessonId : String)
  deriving Repr, DecidableEq

/-- An HTTP response as built by the handlers. -/
structure HttpResp where
  status : Nat
  headers : List (String × String)
  body : Option RespBody
  deriving Repr, DecidableEq

/-- The pre-flight `OPTIONS` response: 200, bare CORS headers, no body. -/
def preflightResp : HttpResp :=
  { status := 200, headers := corsHeaders, body := none }

/-- A JSON response carrying the CORS headers plus `Content-Type`. -/
def jsonResp (status : Nat) (b : RespBody) : HttpResp :=
  { status := status,
    headers := corsHeaders ++ [("Content-Type", "application/json")],
    body := some b }

/-- The 400 validation response. -/
def badRequestResp : HttpResp :=
  jsonResp 400 (.errorMsg "lessonId and outline are required")

/-- The second `await req.json()` of the catch block, run after the first
`req.json()` of the try block has already consumed the request body: per
the fetch specification it always rejects (Body already consumed, or the
empty-body parse error when the request had no body), so the
`.catch(() => ({ lessonId: null }))` fallback yields a null `lessonId`. -/
def consumedBodyReparse : Option String := none

/-- The failure path's best-effort status write (catch block): if the
re-parsed body yields a lessonId, update the row to `status = error` with
the message truncated to 200 characters. -/
def errorPathWrites (reparsedLessonId : Option String) (msg : String)
    (errUpdOk : Bool) : List WriteAttempt :=
  match reparsedLessonId with
  | none => []
  | some lid =>
    [{ targetId := lid,
       patch := { emptyPatch with
         status := some "error",
         error_message := some ((msg.take 200)) },
       ok := errUpdOk }]

/-- The whole catch block: best-effort error write (with the re-parse of
the consumed body), then the 500 response carrying the error message. -/
def catchPath (msg : String) (errUpdOk : Bool) :
    HttpResp × List WriteAttempt :=
  (jsonResp 500 (.errorMsg msg),
   errorPathWrites consumedBodyReparse msg errUpdOk)

/-- The patch of the mandatory content update in `handlerMain`
(index.ts lines 139–147): title, content, image_urls and status together. -/
def contentPatchMain (title text : String) (urls : List String) :
    LessonPatch :=
  { emptyPatch with
    title := some title, content := some text,
    image_urls := some urls, status := some "generated" }

/-- The patch of the mandatory content update in `handlerAlt`
(part_000 lines 101–108): title, content and status together. -/
def contentPatchAlt (title text : String) : LessonPatch :=
  { emptyPatch with
    title := some title, content := some text,
    status := some "generated" }

/-- Embedding of the `Deno.serve` handler of
`src/supabase/functions/generate-lesson/index.ts`.

Arguments beyond the request (`method`, `body`) and the environment are
the oracles for the external world: the Gemini outcome, the Pexels
outcome, whether each store update succeeds (`updateOk` for the mandatory
update, `errUpdOk` for the catch block's best-effort update) and the
message carried by a thrown update error (`updateErrMsg`, covering the
`instanceof Error` branch of the catch). Returns the HTTP response and
the ordered write trace. -/
def handlerMain (method : String) (body : ReqBody) (env : Env)
    (gemini : GeminiOutcome) (pexels : PexelsOutcome)
    (updateOk : Bool) (updateErrMsg : String) (errUpdOk : Bool) :
    HttpResp × List WriteAttempt :=
  if method = "OPTIONS" then (preflightResp, [])
  else
    match body with
    | .malformed msg => catchPath msg errUpdOk
    | .fields lessonId outline =>
      if !truthy lessonId || !truthy outline then (badRequestResp, [])
      else
        let lid := lessonId.getD ""
        let out := outline.getD ""
        if !truthy env.geminiKey then
          catchPath "GEMINI_API_KEY not configured" errUpdOk
        else if !truthy env.supabaseUrl then
          catchPath "supabaseUrl is required." errUpdOk
        else if !truthy env.supabaseKey then
          catchPath "supabaseKey is required." errUpdOk
        else
          match gemini with
          | .netErr msg => catchPath msg errUpdOk
          | .reply status gbody =>
            if !isOkStatus status then
              catchPath ("Gemini error: " ++ toString status) errUpdOk
            else
              match gbody with
              | .malformed msg => catchPath msg errUpdOk
              | .parsed text =>
                if !truthy text then
                  catchPath "No content generated" errUpdOk
                else
                  let generated := text.getD ""
                  let title := (out.take 100).trim
                  let imageUrls :=
                    if truthy env.pexelsKey then
                      fetchImagesFromPexels (pexelsQuery out) pexels
                    else []
                  let w : WriteAttempt :=
                    { targetId := lid,
                      patch := contentPatchMain title generated imageUrls,
                      ok := updateOk }
                  if updateOk then
                    (jsonResp 200 (.success lid), [w])
                  else
                    let after := catchPath updateErrMsg errUpdOk
                    (after.1, w :: after.2)

/-- Embedding of the `Deno.serve` handler of `src/unnamed/part_000`: the
near-duplicate variant without the Pexels step (no `pexelsKey` read, no
`image_urls` column in the update). -/
def handlerAlt (method : String) (body : ReqBody) (env : Env)
    (gemini : GeminiOutcome)
    (updateOk : Bool) (updateErrMsg : String) (errUpdOk : Bool) :
    HttpResp × List WriteAttempt :=
  if method = "OPTIONS" then (preflightResp, [])
  else
    match body with
    | .malformed msg => catchPath msg errUpdOk
    | .fields lessonId outline =>
      if !truthy lessonId || !truthy outline then (badRequestResp, [])
      else
        let lid := lessonId.getD ""
        let out := outline.getD ""
        if !truthy env.geminiKey then
          catchPath "GEMINI_API_KEY not configured" errUpdOk
        else if !truthy env.supabaseUrl then
          catchPath "supabaseUrl is required." errUpdOk
        else if !truthy env.supabaseKey then
          catchPath "supabaseKey is required." errUpdOk
        else
          match gemini with
          | .netErr msg => catchPath msg errUpdOk
          | .reply status gbody =>
            if !isOkStatus status then
              catchPath ("Gemini error: " ++ toString status) errUpdOk
            else
              match gbody with
              | .malformed msg => catchPath msg errUpdOk
              | .parsed text =>
                if !truthy text then
                  catchPath "No content generated" errUpdOk
                else
                  let generated := text.getD ""
                  let title := (out.take 100).trim
                  let w : WriteAttempt :=
                    { targetId := lid,
                      patch := contentPatchAlt title generated,
                      ok := updateOk }
                  if updateOk then
                    (jsonResp 200 (.success lid), [w])
                  else
                    let after := catchPath updateErrMsg errUpdOk
                    (after.1, w :: after.2)

/-- What `fetchLesson` of the `LessonPage` component observes from its
point read (`.select('*').eq('id', id).maybeSingle()`). -/
inductive FetchLessonResult where
  | fetchError (msg : String)
  | notFound
  | found (row : LessonRow)
  deriving Repr, DecidableEq

/-- Embedding of `fetchLesson` in the presentation layer: a pure
point-read — it maps the store's reply to a view state and performs no
store write (empty write trace). -/
def fetchLesson (dbReply : Except String (Option LessonRow)) :
    FetchLessonResult × List WriteAttempt :=
  match dbReply with
  | .error _ => (.fetchError "Failed to load lesson", [])
  | .ok none => (.notFound, [])
  | .ok (some row) => (.found row, [])

/-- A patch carries title, content and `status = generated` together, or
none of them (the atomicity shape of C5). -/
def atomicPatch (w : WriteAttempt) : Bool :=
  (w.patch.title.isSome && w.patch.content.isSome &&
    (w.patch.status == some "generated")) ||
  (w.patch.title.isNone && w.patch.content.isNone &&
    !(w.patch.status == some "generated"))

/-- A patch leaves `id`, `outline`, `created_at` and `quiz_data`
untouched — it can only carry the five mutable columns. -/
def framePatch (w : WriteAttempt) : Bool :=
  w.patch.id.isNone && w.patch.outline.isNone &&
  w.patch.created_at.isNone && w.patch.quiz_data.isNone

/-- A patch leaves `quiz_data` untouched. -/
def quizUntouched (w : WriteAttempt) : Bool := w.patch.quiz_data.isNone

/-- The Gemini call failed as the handler sees it: rejected fetch,
non-2xx status, unparseable body, or missing/empty extracted text. -/
def geminiFails (g : GeminiOutcome) : Bool :=
  match g with
  | .netErr _ => true
  | .reply st b =>
    !isOkStatus st ||
    (match b with
     | .malformed _ => true
     | .parsed t => !truthy t)

/-- The Pexels call failed as `fetchImagesFromPexels` sees it: rejected
fetch, non-2xx status, unparseable body, or missing `photos` field. -/
def pexelsFails (o : PexelsOutcome) : Bool :=
  match o with
  | .netErr _ => true
  | .reply st b =>
    !isOkStatus st ||
    (match b with
     | .malformed _ => true
     | .photos none => true
     | .photos (some _) => false)

/-- Does a response carry all three permissive cross-origin headers? -/
def hasCors (r : HttpResp) : Bool :=
  corsHeaders.all (fun h => r.headers.contains h)

/-- A sample environment with every key configured. -/
def envFull : Env :=
  { supabaseUrl := some "https://proj.supabase.co",
    supabaseKey := some "service-role-key",
    geminiKey := some "gemini-key",
    pexelsKey := some "pexels-key" }

/-- A sample environment without the optional image-search key. -/
def envNoPexels : Env :=
  { supabaseUrl := some "https://proj.supabase.co",
    supabaseKey := some "service-role-key",
    geminiKey := some "gemini-key",
    pexelsKey := none }

/-- A sample environment without the required text-generation key. -/
def envNoGemini : Env :=
  { supabaseUrl := some "https://proj.supabase.co",
    supabaseKey := some "service-role-key",
    geminiKey := none,
    pexelsKey := some "pexels-key" }

/-! ## Helper lemmas -/

theorem truthy_some_of_ne {s : String} (h : s ≠ "") :
    truthy (some s) = true := by
  have hs : s.isEmpty = false := by
    rw [Bool.eq_false_iff]
    intro hc
    exact h ((String.isEmpty_iff s).mp hc)
  simp [truthy, hs]

theorem catchPath_eq (msg : String) (eo : Bool) :
    catchPath msg eo = (jsonResp 500 (.errorMsg msg), []) := rfl

/-- Exhaustive outcome characterization of `handlerMain`: pre-flight with
no write, an error/validation JSON response with no write, or a run whose
only write is the single mandatory content update. -/
theorem handlerMain_cases (m : String) (b : ReqBody) (e : Env)
    (g : GeminiOutcome) (p : PexelsOutcome) (u : Bool) (um : String)
    (eo : Bool) :
    handlerMain m b e g p u um eo = (preflightResp, []) ∨
    (∃ st msg,
      handlerMain m b e g p u um eo = (jsonResp st (.errorMsg msg), [])) ∨
    (∃ st rb lid title text urls,
      handlerMain m b e g p u um eo =
        (jsonResp st rb,
         [{ targetId := lid, patch := contentPatchMain title text urls,
            ok := u }])) := by
  by_cases hm : m = "OPTIONS"
  · left
    simp [handlerMain, hm]
  · cases b with
    | malformed msg =>
      right; left
      exact ⟨500, msg, by simp [handlerMain, hm, catchPath_eq]⟩
    | fields lidO outO =>
      cases hv : (!truthy lidO || !truthy outO) with
      | true =>
        right; left
        refine ⟨400, "lessonId and outline are required", ?_⟩
        simp [handlerMain, hm, hv, badRequestResp]
      | false =>
        cases hg : (!truthy e.geminiKey) with
        | true =>
          right; left
          refine ⟨500, "GEMINI_API_KEY not configured", ?_⟩
          simp [handlerMain, hm, hv, hg, catchPath_eq]
        | false =>
          cases hsu : (!truthy e.supabaseUrl) with
          | true =>
            right; left
            refine ⟨500, "supabaseUrl is required.", ?_⟩
            simp [handlerMain, hm, hv, hg, hsu, catchPath_eq]
          | false =>
            cases hsk : (!truthy e.supabaseKey) with
            | true =>
              right; left
              refine ⟨500, "supabaseKey is required.", ?_⟩
              simp [handlerMain, hm, hv, hg, hsu, hsk, catchPath_eq]
            | false =>
              cases g with
              | netErr msg =>
                right; left
                refine ⟨500, msg, ?_⟩
                simp [handlerMain, hm, hv, hg, hsu, hsk, catchPath_eq]
              | reply st gb =>
                cases hok : (!isOkStatus st) with
                | true =>
                  right; left
                  refine ⟨500, "Gemini error: " ++ toString st, ?_⟩
                  simp [handlerMain, hm, hv, hg, hsu, hsk, hok, catchPath_eq]
                | false =>
                  cases gb with
                  | malformed msg =>
                    right; left
                    refine ⟨500, msg, ?_⟩
                    simp [handlerMain, hm, hv, hg, hsu, hsk, hok,
                      catchPath_eq]
                  | parsed text =>
                    cases htx : (!truthy text) with
                    | true =>
                      right; left
                      refine ⟨500, "No content generated", ?_⟩
                      simp [handlerMain, hm, hv, hg, hsu, hsk, hok, htx,
                        catchPath_eq]
                    | false =>
                      cases u with
                      | true =>
                        right; right
                        refine ⟨200, .success (lidO.getD ""), lidO.getD "",
                          ((outO.getD "").take 100).trim, text.getD "",
                          (if truthy e.pexelsKey then
                            fetchImagesFromPexels (pexelsQuery (outO.getD "")) p
                          else []), ?_⟩
                        simp [handlerMain, hm, hv, hg, hsu, hsk, hok, htx]
                      | false =>
                        right; right
                        refine ⟨500, .errorMsg um, lidO.getD "",
                          ((outO.getD "").take 100).trim, text.getD "",
                          (if truthy e.pexelsKey then
                            fetchImagesFromPexels (pexelsQuery (outO.getD "")) p
                          else []), ?_⟩
                        simp [handlerMain, hm, hv, hg, hsu, hsk, hok, htx,
                          catchPath_eq]

/-- Exhaustive outcome characterization of `handlerAlt`. -/
theorem handlerAlt_cases (m : String) (b : ReqBody) (e : Env)
    (g : GeminiOutcome) (u : Bool) (um : String) (eo : Bool) :
    handlerAlt m b e g u um eo = (preflightResp, []) ∨
    (∃ st msg,
      handlerAlt m b e g u um eo = (jsonResp st (.errorMsg msg), [])) ∨
    (∃ st rb lid title text,
      handlerAlt m b e g u um eo =
        (jsonResp st rb,
         [{ targetId := lid, patch := contentPatchAlt title text,
            ok := u }])) := by
  by_cases hm : m = "OPTIONS"
  · left
    simp [handlerAlt, hm]
  · cases b with
    | malformed msg =>
      right; left
      exact ⟨500, msg, by simp [handlerAlt, hm, catchPath_eq]⟩
    | fields lidO outO =>
      cases hv : (!truthy lidO || !truthy outO) with
      | true =>
        right; left
        refine ⟨400, "lessonId and outline are required", ?_⟩
        simp [handlerAlt, hm, hv, badRequestResp]
      | false =>
        cases hg : (!truthy e.geminiKey) with
        | true =>
          right; left
          refine ⟨500, "GEMINI_API_KEY not configured", ?_⟩
          simp [handlerAlt, hm, hv, hg, catchPath_eq]
        | false =>
          cases hsu : (!truthy e.supabaseUrl) with
          | true =>
            right; left
            refine ⟨500, "supabaseUrl is required.", ?_⟩
            simp [handlerAlt, hm, hv, hg, hsu, catchPath_eq]
          | false =>
            cases hsk : (!truthy e.supabaseKey) with
            | true =>
              right; left
              refine ⟨500, "supabaseKey is required.", ?_⟩
              simp [handlerAlt, hm, hv, hg, hsu, hsk, catchPath_eq]
            | false =>
              cases g with
              | netErr msg =>
                right; left
                refine ⟨500, msg, ?_⟩
                simp [handlerAlt, hm, hv, hg, hsu, hsk, catchPath_eq]
              | reply st gb =>
                cases hok : (!isOkStatus st) with
                | true =>
                  right; left
                  refine ⟨500, "Gemini error: " ++ toString st, ?_⟩
                  simp [handlerAlt, hm, hv, hg, hsu, hsk, hok, catchPath_eq]
                | false =>
                  cases gb with
                  | malformed msg =>
                    right; left
                    refine ⟨500, msg, ?_⟩
                    simp [handlerAlt, hm, hv, hg, hsu, hsk, hok,
                      catchPath_eq]
                  | parsed text =>
                    cases htx : (!truthy text) with
                    | true =>
                      right; left
                      refine ⟨500, "No content generated", ?_⟩
                      simp [handlerAlt, hm, hv, hg, hsu, hsk, hok, htx,
                        catchPath_eq]
                    | false =>
                      cases u with
                      | true =>
                        right; right
                        refine ⟨200, .success (lidO.getD ""), lidO.getD "",
                          ((outO.getD "").take 100).trim, text.getD "", ?_⟩
                        simp [handlerAlt, hm, hv, hg, hsu, hsk, hok, htx]
                      | false =>
                        right; right
                        refine ⟨500, .errorMsg um, lidO.getD "",
                          ((outO.getD "").take 100).trim, text.getD "", ?_⟩
                        simp [handlerAlt, hm, hv, hg, hsu, hsk, hok, htx,
                          catchPath_eq]

theorem fetchImagesFromPexels_eq_nil_of_fails (q : String)
    (o : PexelsOutcome) (h : pexelsFails o = true) :
    fetchImagesFromPexels q o = [] := by
  cases o with
  | netErr msg => rfl
  | reply st b =>
    cases hok : isOkStatus st with
    | false => simp [fetchImagesFromPexels, hok]
    | true =>
      cases b with
      | malformed msg => simp [fetchImagesFromPexels, hok]
      | photos urls =>
        cases urls with
        | none => simp [fetchImagesFromPexels, hok]
        | some us => simp [pexelsFails, hok] at h

/-- The mandatory content update of `handlerMain` is atomic and
frame-respecting. -/
theorem contentPatchMain_shape (title text : String) (urls : List String)
    (u : Bool) (lid : String) :
    atomicPatch ⟨lid, contentPatchMain title text urls, u⟩ = true ∧
    framePatch ⟨lid, contentPatchMain title text urls, u⟩ = true := by
  constructor <;> rfl

/-- The mandatory content update of `handlerAlt` is atomic and
frame-respecting. -/
theorem contentPatchAlt_shape (title text : String)
    (u : Bool) (lid : String) :
    atomicPatch ⟨lid, contentPatchAlt title text, u⟩ = true ∧
    framePatch ⟨lid, contentPatchAlt title text, u⟩ = true := by
  constructor <;> rfl

/-- A write trace whose every patch is frame-respecting preserves `id`,
`outline`, `created_at` and `quiz_data` of any row. -/
theorem runWrites_frame (ws : List WriteAttempt)
    (h : ws.all framePatch = true) (r : LessonRow) :
    (runWrites r ws).id = r.id ∧ (runWrites r ws).outline = r.outline ∧
    (runWrites r ws).created_at = r.created_at ∧
    (runWrites r ws).quiz_data = r.quiz_data := by
  induction ws generalizing r with
  | nil => exact ⟨rfl, rfl, rfl, rfl⟩
  | cons w ws ih =>
    rw [List.all_cons, Bool.and_eq_true] at h
    have hstep : (applyWrite r w).id = r.id ∧
        (applyWrite r w).outline = r.outline ∧
        (applyWrite r w).created_at = r.created_at ∧
        (applyWrite r w).quiz_data = r.quiz_data := by
      unfold applyWrite
      split
      · have h1 := h.1
        unfold framePatch at h1
        simp only [Bool.and_eq_true, Option.isNone_iff_eq_none] at h1
        unfold applyPatch
        refine ⟨?_, ?_, ?_, ?_⟩ <;>
          simp [h1.1.1.1, h1.1.1.2, h1.1.2, h1.2]
      · exact ⟨rfl, rfl, rfl, rfl⟩
    have hrest := ih h.2 (applyWrite r w)
    unfold runWrites at hrest ⊢
    rw [List.foldl_cons]
    exact ⟨hrest.1.trans hstep.1, hrest.2.1.trans hstep.2.1,
      hrest.2.2.1.trans hstep.2.2.1, hrest.2.2.2.trans hstep.2.2.2⟩

/-- Success-path equation for `handlerMain`: a non-preflight request with
both fields present, all required configuration, a 2xx Gemini reply with
non-empty extracted text, and an accepted update produce the success
response and exactly one write — the single content update (whose
`image_urls` come from the synchronous Pexels call when the key is
configured). -/
theorem handlerMain_success_eq (m lid out text um : String) (e : Env)
    (st : Nat) (p : PexelsOutcome) (eo : Bool)
    (hm : m ≠ "OPTIONS") (hl : lid ≠ "") (ho : out ≠ "")
    (hg : truthy e.geminiKey = true) (hsu : truthy e.supabaseUrl = true)
    (hsk : truthy e.supabaseKey = true) (hst : isOkStatus st = true)
    (ht : text ≠ "") :
    handlerMain m (.fields (some lid) (some out)) e
        (.reply st (.parsed (some text))) p true um eo =
      (jsonResp 200 (.success lid),
       [⟨lid,
         contentPatchMain ((out.take 100).trim) text
           (if truthy e.pexelsKey then
             fetchImagesFromPexels (pexelsQuery out) p
           else []),
         true⟩]) := by
  simp [handlerMain, hm, truthy_some_of_ne hl, truthy_some_of_ne ho, hg,
    hsu, hsk, hst, truthy_some_of_ne ht]

/-- Success-path equation for `handlerAlt`. -/
theorem handlerAlt_success_eq (m lid out text um : String) (e : Env)
    (st : Nat) (eo : Bool)
    (hm : m ≠ "OPTIONS") (hl : lid ≠ "") (ho : out ≠ "")
    (hg : truthy e.geminiKey = true) (hsu : truthy e.supabaseUrl = true)
    (hsk : truthy e.supabaseKey = true) (hst : isOkStatus st = true)
    (ht : text ≠ "") :
    handlerAlt m (.fields (some lid) (some out)) e
        (.reply st (.parsed (some text))) true um eo =
      (jsonResp 200 (.success lid),
       [⟨lid, contentPatchAlt ((out.take 100).trim) text, true⟩]) := by
  simp [handlerAlt, hm, truthy_some_of_ne hl, truthy_some_of_ne ho, hg,
    hsu, hsk, hst, truthy_some_of_ne ht]

/-- When the Gemini call fails, `handlerMain` performs no write at all
(in particular the catch block's best-effort error write is defeated by
the consumed request body). -/
theorem handlerMain_writes_nil_of_geminiFails (m : String) (b : ReqBody)
    (e : Env) (g : GeminiOutcome) (p : PexelsOutcome) (u : Bool)
    (um : String) (eo : Bool) (h : geminiFails g = true) :
    (handlerMain m b e g p u um eo).2 = [] := by
  by_cases hm : m = "OPTIONS"
  · simp [handlerMain, hm]
  · cases b with
    | malformed msg => simp [handlerMain, hm, catchPath_eq]
    | fields lidO outO =>
      cases hv : (!truthy lidO || !truthy outO) with
      | true => simp [handlerMain, hm, hv]
      | false =>
        cases hg : (!truthy e.geminiKey) with
        | true => simp [handlerMain, hm, hv, hg, catchPath_eq]
        | false =>
          cases hsu : (!truthy e.supabaseUrl) with
          | true => simp [handlerMain, hm, hv, hg, hsu, catchPath_eq]
          | false =>
            cases hsk : (!truthy e.supabaseKey) with
            | true => simp [handlerMain, hm, hv, hg, hsu, hsk, catchPath_eq]
            | false =>
              cases g with
              | netErr msg =>
                simp [handlerMain, hm, hv, hg, hsu, hsk, catchPath_eq]
              | reply st gb =>
                cases hok : (!isOkStatus st) with
                | true =>
                  simp [handlerMain, hm, hv, hg, hsu, hsk, hok, catchPath_eq]
                | false =>
                  cases gb with
                  | malformed msg =>
                    simp [handlerMain, hm, hv, hg, hsu, hsk, hok,
                      catchPath_eq]
                  | parsed text =>
                    cases htx : (!truthy text) with
                    | true =>
                      simp [handlerMain, hm, hv, hg, hsu, hsk, hok, htx,
                        catchPath_eq]
                    | false =>
                      exfalso
                      simp [geminiFails, Bool.not_eq_true'] at hok htx
                      simp [geminiFails, hok, htx] at h

/-- When the Gemini call fails, `handlerAlt` performs no write at all. -/
theorem handlerAlt_writes_nil_of_geminiFails (m : String) (b : ReqBody)
    (e : Env) (g : GeminiOutcome) (u : Bool)
    (um : String) (eo : Bool) (h : geminiFails g = true) :
    (handlerAlt m b e g u um eo).2 = [] := by
  by_cases hm : m = "OPTIONS"
  · simp [handlerAlt, hm]
  · cases b with
    | malformed msg => simp [handlerAlt, hm, catchPath_eq]
    | fields lidO outO =>
      cases hv : (!truthy lidO || !truthy outO) with
      | true => simp [handlerAlt, hm, hv]
      | false =>
        cases hg : (!truthy e.geminiKey) with
        | true => simp [handlerAlt, hm, hv, hg, catchPath_eq]
        | false =>
          cases hsu : (!truthy e.supabaseUrl) with
          | true => simp [handlerAlt, hm, hv, hg, hsu, catchPath_eq]
          | false =>
            cases hsk : (!truthy e.supabaseKey) with
            | true => simp [handlerAlt, hm, hv, hg, hsu, hsk, catchPath_eq]
            | false =>
              cases g with
              | netErr msg =>
                simp [handlerAlt, hm, hv, hg, hsu, hsk, catchPath_eq]
              | reply st gb =>
                cases hok : (!isOkStatus st) with
                | true =>
                  simp [handlerAlt, hm, hv, hg, hsu, hsk, hok, catchPath_eq]
                | false =>
                  cases gb with
                  | malformed msg =>
                    simp [handlerAlt, hm, hv, hg, hsu, hsk, hok,
                      catchPath_eq]
                  | parsed text =>
                    cases htx : (!truthy text) with
                    | true =>
                      simp [handlerAlt, hm, hv, hg, hsu, hsk, hok, htx,
                        catchPath_eq]
                    | false =>
                      exfalso
                      simp [geminiFails, Bool.not_eq_true'] at hok htx
                      simp [geminiFails, hok, htx] at h

/-- Every write of `handlerMain` is an atomic, frame-respecting content
update that does not carry `quiz_data`. -/
theorem handlerMain_all_writes (m : String) (b : ReqBody) (e : Env)
    (g : GeminiOutcome) (p : PexelsOutcome) (u : Bool) (um : String)
    (eo : Bool) :
    (handlerMain m b e g p u um eo).2.all atomicPatch = true ∧
    (handlerMain m b e g p u um eo).2.all framePatch = true ∧
    (handlerMain m b e g p u um eo).2.all quizUntouched = true := by
  rcases handlerMain_cases m b e g p u um eo with h | ⟨st, msg, h⟩ |
    ⟨st, rb, lid, title, text, urls, h⟩ <;> rw [h] <;>
    exact ⟨rfl, rfl, rfl⟩

/-- Every write of `handlerAlt` is an atomic, frame-respecting content
update that does not carry `quiz_data`. -/
theorem handlerAlt_all_writes (m : String) (b : ReqBody) (e : Env)
    (g : GeminiOutcome) (u : Bool) (um : String) (eo : Bool) :
    (handlerAlt m b e g u um eo).2.all atomicPatch = true ∧
    (handlerAlt m b e g u um eo).2.all framePatch = true ∧
    (handlerAlt m b e g u um eo).2.all quizUntouched = true := by
  rcases handlerAlt_cases m b e g u um eo with h | ⟨st, msg, h⟩ |
    ⟨st, rb, lid, title, text, h⟩ <;> rw [h] <;>
    exact ⟨rfl, rfl, rfl⟩

/-- Every response of `handlerMain` carries the CORS headers. -/
theorem handlerMain_hasCors (m : String) (b : ReqBody) (e : Env)
    (g : GeminiOutcome) (p : PexelsOutcome) (u : Bool) (um : String)
    (eo : Bool) :
    hasCors (handlerMain m b e g p u um eo).1 = true := by
  rcases handlerMain_cases m b e g p u um eo with h | ⟨st, msg, h⟩ |
    ⟨st, rb, lid, title, text, urls, h⟩ <;> rw [h] <;> rfl

/-- Every response of `handlerAlt` carries the CORS headers. -/
theorem handlerAlt_hasCors (m : String) (b : ReqBody) (e : Env)
    (g : GeminiOutcome) (u : Bool) (um : String) (eo : Bool) :
    hasCors (handlerAlt m b e g u um eo).1 = true := by
  rcases handlerAlt_cases m b e g u um eo with h | ⟨st, msg, h⟩ |
    ⟨st, rb, lid, title, text, h⟩ <;> rw [h] <;> rfl

/-- Applying the single `handlerMain` content update to the freshly
created row. -/
theorem runWrites_content_main (lid out text : String)
    (urls : List String) (t : Nat) :
    runWrites (initialRow lid out t)
        [⟨lid, contentPatchMain ((out.take 100).trim) text urls, true⟩] =
      { id := lid, outline := out, title := some ((out.take 100).trim),
        content := some text, status := "generated", error_message := none,
        image_urls := urls, quiz_data := [], created_at := t } := by
  simp [runWrites, applyWrite, applyPatch, contentPatchMain, emptyPatch,
    initialRow]

/-- Applying the single `handlerAlt` content update to the freshly
created row. -/
theorem runWrites_content_alt (lid out text : String) (t : Nat) :
    runWrites (initialRow lid out t)
        [⟨lid, contentPatchAlt ((out.take 100).trim) text, true⟩] =
      { id := lid, outline := out, title := some ((out.take 100).trim),
        content := some text, status := "generated", error_message := none,
        image_urls := [], quiz_data := [], created_at := t } := by
  simp [runWrites, applyWrite, applyPatch, contentPatchAlt, emptyPatch,
    initialRow]

/-! ## Claim theorems -/

/-- C1: for every request whose text-generation upstream call succeeds
(2xx status and a non-empty extracted text field) and whose mandatory
update is accepted, both handler variants update the lesson row to
`status = generated` with `content` equal to the extracted text and
`title` equal to the first 100 characters of the outline (trimmed), and
respond with the success body carrying the lessonId. -/
theorem c1_textgen_success_updates_row (m lid out text um : String)
    (e : Env) (st t : Nat) (p : PexelsOutcome) (eo : Bool)
    (hm : m ≠ "OPTIONS") (hl : lid ≠ "") (ho : out ≠ "")
    (hg : truthy e.geminiKey = true) (hsu : truthy e.supabaseUrl = true)
    (hsk : truthy e.supabaseKey = true) (hst : isOkStatus st = true)
    (ht : text ≠ "") :
    ((handlerMain m (.fields (some lid) (some out)) e
        (.reply st (.parsed (some text))) p true um eo).1 =
      jsonResp 200 (.success lid) ∧
     (runWrites (initialRow lid out t)
        (handlerMain m (.fields (some lid) (some out)) e
          (.reply st (.parsed (some text))) p true um eo).2).status =
       "generated" ∧
     (runWrites (initialRow lid out t)
        (handlerMain m (.fields (some lid) (some out)) e
          (.reply st (.parsed (some text))) p true um eo).2).content =
       some text ∧
     (runWrites (initialRow lid out t)
        (handlerMain m (.fields (some lid) (some out)) e
          (.reply st (.parsed (some text))) p true um eo).2).title =
       some ((out.take 100).trim)) ∧
    ((handlerAlt m (.fields (some lid) (some out)) e
        (.reply st (.parsed (some text))) true um eo).1 =
      jsonResp 200 (.success lid) ∧
     (runWrites (initialRow lid out t)
        (handlerAlt m (.fields (some lid) (some out)) e
          (.reply st (.parsed (some text))) true um eo).2).status =
       "generated" ∧
     (runWrites (initialRow lid out t)
        (handlerAlt m (.fields (some lid) (some out)) e
          (.reply st (.parsed (some text))) true um eo).2).content =
       some text ∧
     (runWrites (initialRow lid out t)
        (handlerAlt m (.fields (some lid) (some out)) e
          (.reply st (.parsed (some text))) true um eo).2).title =
       some ((out.take 100).trim)) := by
  constructor
  · refine ⟨?_, ?_, ?_, ?_⟩ <;>
      simp [handlerMain_success_eq m lid out text um e st p eo hm hl ho hg
        hsu hsk hst ht, runWrites_content_main]
  · refine ⟨?_, ?_, ?_, ?_⟩ <;>
      simp [handlerAlt_success_eq m lid out text um e st eo hm hl ho hg
        hsu hsk hst ht, runWrites_content_alt]

/-- Witness for C1 at a concrete successful run. -/
theorem c1_textgen_success_updates_row_witness :
    (handlerMain "POST"
        (.fields (some "abc") (some "Photosynthesis basics")) envNoPexels
        (.reply 200 (.parsed (some "## Intro"))) (.netErr "x") true
        "unused" true).1 = jsonResp 200 (.success "abc") ∧
    (runWrites (initialRow "abc" "Photosynthesis basics" 0)
        (handlerMain "POST"
          (.fields (some "abc") (some "Photosynthesis basics")) envNoPexels
          (.reply 200 (.parsed (some "## Intro"))) (.netErr "x") true
          "unused" true).2).status = "generated" ∧
    (runWrites (initialRow "abc" "Photosynthesis basics" 0)
        (handlerMain "POST"
          (.fields (some "abc") (some "Photosynthesis basics")) envNoPexels
          (.reply 200 (.parsed (some "## Intro"))) (.netErr "x") true
          "unused" true).2).content = some "## Intro" ∧
    (runWrites (initialRow "abc" "Photosynthesis basics" 0)
        (handlerMain "POST"
          (.fields (some "abc") (some "Photosynthesis basics")) envNoPexels
          (.reply 200 (.parsed (some "## Intro"))) (.netErr "x") true
          "unused" true).2).title =
      some (("Photosynthesis basics".take 100).trim) := by
  exact (c1_textgen_success_updates_row "POST" "abc"
    "Photosynthesis basics" "## Intro" "unused" envNoPexels 200 0
    (.netErr "x") true (by decide) (by decide) (by decide) (by decide)
    (by decide) (by decide) (by decide) (by decide)).1

set_option maxRecDepth 8192 in
/-- C2: the claim says a non-2xx text-generation status leaves the row in
`status = error` with a non-empty truncated `error_message`. The code does
respond 500 with the `Gemini error: <status>` message, but the catch
block's row update is unreachable: it re-reads the already-consumed
request body, so the `.catch` fallback yields a null lessonId and no
write is performed — at this concrete failing input the write trace is
empty and the row keeps its prior `generating` state. The last conjunct
shows the error write would have fired had the re-parse produced the
lessonId. -/
theorem c2_gemini_error_row_never_updated :
    (handlerMain "POST"
        (.fields (some "abc") (some "Photosynthesis basics")) envFull
        (.reply 503 (.parsed none)) (.netErr "x") true "u" true).1 =
      jsonResp 500 (.errorMsg "Gemini error: 503") ∧
    (handlerMain "POST"
        (.fields (some "abc") (some "Photosynthesis basics")) envFull
        (.reply 503 (.parsed none)) (.netErr "x") true "u" true).2 = [] ∧
    runWrites (initialRow "abc" "Photosynthesis basics" 0)
        (handlerMain "POST"
          (.fields (some "abc") (some "Photosynthesis basics")) envFull
          (.reply 503 (.parsed none)) (.netErr "x") true "u" true).2 =
      initialRow "abc" "Photosynthesis basics" 0 ∧
    (initialRow "abc" "Photosynthesis basics" 0).status = "generating" ∧
    errorPathWrites consumedBodyReparse "Gemini error: 503" true = [] ∧
    errorPathWrites (some "abc") "Gemini error: 503" true =
      [⟨"abc",
        { emptyPatch with status := some "error",
                          error_message := some "Gemini error: 503" },
        true⟩] := by
  refine ⟨rfl, rfl, rfl, rfl, rfl, rfl⟩

set_option maxRecDepth 8192 in
/-- C3 counterexample: at a concrete successful request (image-search key
configured, Pexels reply delivering a URL) the handler performs exactly
one point-update — there is no second update and no write ever carries
`quiz_data`, contradicting the claimed quiz-generation continuation and
second point-update; the alternate variant behaves the same. -/
theorem c3_no_second_update_counterexample :
    (handlerMain "POST"
        (.fields (some "abc") (some "Photosynthesis basics")) envFull
        (.reply 200 (.parsed (some "## Intro")))
        (.reply 200 (.photos (some ["https://images.pexels.com/a.jpg"])))
        true "u" true).2.length = 1 ∧
    (handlerMain "POST"
        (.fields (some "abc") (some "Photosynthesis basics")) envFull
        (.reply 200 (.parsed (some "## Intro")))
        (.reply 200 (.photos (some ["https://images.pexels.com/a.jpg"])))
        true "u" true).2.all quizUntouched = true ∧
    (handlerAlt "POST"
        (.fields (some "abc") (some "Photosynthesis basics")) envFull
        (.reply 200 (.parsed (some "## Intro"))) true "u" true).2.length =
      1 ∧
    (handlerAlt "POST"
        (.fields (some "abc") (some "Photosynthesis basics")) envFull
        (.reply 200 (.parsed (some "## Intro"))) true "u" true).2.all
      quizUntouched = true := by
  refine ⟨rfl, rfl, rfl, rfl⟩

/-- C3 (amended): there is no quiz-generation call and no second
point-update; when an image-search key is configured the handler calls
image search synchronously before the single mandatory update — whose
patch already carries `image_urls` — and only then sends the success
response; `quiz_data` is never written. -/
theorem c3_amended_sync_single_update (m lid out text um : String)
    (e : Env) (st : Nat) (p : PexelsOutcome) (eo : Bool)
    (hm : m ≠ "OPTIONS") (hl : lid ≠ "") (ho : out ≠ "")
    (hg : truthy e.geminiKey = true) (hsu : truthy e.supabaseUrl = true)
    (hsk : truthy e.supabaseKey = true) (hst : isOkStatus st = true)
    (ht : text ≠ "") (hp : truthy e.pexelsKey = true) :
    handlerMain m (.fields (some lid) (some out)) e
        (.reply st (.parsed (some text))) p true um eo =
      (jsonResp 200 (.success lid),
       [⟨lid,
         contentPatchMain ((out.take 100).trim) text
           (fetchImagesFromPexels (pexelsQuery out) p),
         true⟩]) ∧
    (contentPatchMain ((out.take 100).trim) text
        (fetchImagesFromPexels (pexelsQuery out) p)).quiz_data = none := by
  refine ⟨?_, rfl⟩
  simp [handlerMain_success_eq m lid out text um e st p eo hm hl ho hg hsu
    hsk hst ht, hp]

/-- Witness for the amended C3 at a concrete successful run. -/
theorem c3_amended_sync_single_update_witness :
    handlerMain "POST"
        (.fields (some "abc") (some "Photosynthesis basics")) envFull
        (.reply 200 (.parsed (some "## Intro")))
        (.reply 200 (.photos (some ["https://images.pexels.com/a.jpg"])))
        true "u" true =
      (jsonResp 200 (.success "abc"),
       [⟨"abc",
         contentPatchMain (("Photosynthesis basics".take 100).trim)
           "## Intro"
           (fetchImagesFromPexels (pexelsQuery "Photosynthesis basics")
             (.reply 200
               (.photos (some ["https://images.pexels.com/a.jpg"])))),
         true⟩]) ∧
    (contentPatchMain (("Photosynthesis basics".take 100).trim) "## Intro"
        (fetchImagesFromPexels (pexelsQuery "Photosynthesis basics")
          (.reply 200
            (.photos (some ["https://images.pexels.com/a.jpg"]))))).quiz_data =
      none := by
  exact c3_amended_sync_single_update "POST" "abc" "Photosynthesis basics"
    "## Intro" "u" envFull 200
    (.reply 200 (.photos (some ["https://images.pexels.com/a.jpg"]))) true
    (by decide) (by decide) (by decide) (by decide) (by decide) (by decide)
    (by decide) (by decide) (by decide)

/-- C4: when the text-generation call succeeds but the image-search call
fails (rejected fetch, non-2xx status, or unparseable/missing payload),
the row still reaches `status = generated` with `content` set, both
`image_urls` and `quiz_data` are empty sequences rather than an error
state, and the caller still receives the success response. (There is no
quiz-generation call in the code, so `quiz_data` simply stays at its
empty default.) -/
theorem c4_enrichment_failure_keeps_success (m lid out text um : String)
    (e : Env) (st t : Nat) (o : PexelsOutcome) (eo : Bool)
    (hm : m ≠ "OPTIONS") (hl : lid ≠ "") (ho : out ≠ "")
    (hg : truthy e.geminiKey = true) (hsu : truthy e.supabaseUrl = true)
    (hsk : truthy e.supabaseKey = true) (hst : isOkStatus st = true)
    (ht : text ≠ "") (hp : truthy e.pexelsKey = true)
    (hfail : pexelsFails o = true) :
    (handlerMain m (.fields (some lid) (some out)) e
        (.reply st (.parsed (some text))) o true um eo).1 =
      jsonResp 200 (.success lid) ∧
    (runWrites (initialRow lid out t)
        (handlerMain m (.fields (some lid) (some out)) e
          (.reply st (.parsed (some text))) o true um eo).2).status =
      "generated" ∧
    (runWrites (initialRow lid out t)
        (handlerMain m (.fields (some lid) (some out)) e
          (.reply st (.parsed (some text))) o true um eo).2).content =
      some text ∧
    (runWrites (initialRow lid out t)
        (handlerMain m (.fields (some lid) (some out)) e
          (.reply st (.parsed (some text))) o true um eo).2).image_urls =
      [] ∧
    (runWrites (initialRow lid out t)
        (handlerMain m (.fields (some lid) (some out)) e
          (.reply st (.parsed (some text))) o true um eo).2).quiz_data =
      [] := by
  have hnil := fetchImagesFromPexels_eq_nil_of_fails (pexelsQuery out) o
    hfail
  refine ⟨?_, ?_, ?_, ?_, ?_⟩ <;>
    simp [handlerMain_success_eq m lid out text um e st o eo hm hl ho hg
      hsu hsk hst ht, hp, hnil, runWrites_content_main]

/-- Witness for C4 with a Pexels network failure. -/
theorem c4_enrichment_failure_keeps_success_witness :
    (handlerMain "POST"
        (.fields (some "abc") (some "Photosynthesis basics")) envFull
        (.reply 200 (.parsed (some "## Intro"))) (.netErr "network down")
        true "u" true).1 = jsonResp 200 (.success "abc") ∧
    (runWrites (initialRow "abc" "Photosynthesis basics" 0)
        (handlerMain "POST"
          (.fields (some "abc") (some "Photosynthesis basics")) envFull
          (.reply 200 (.parsed (some "## Intro"))) (.netErr "network down")
          true "u" true).2).status = "generated" ∧
    (runWrites (initialRow "abc" "Photosynthesis basics" 0)
        (handlerMain "POST"
          (.fields (some "abc") (some "Photosynthesis basics")) envFull
          (.reply 200 (.parsed (some "## Intro"))) (.netErr "network down")
          true "u" true).2).content = some "## Intro" ∧
    (runWrites (initialRow "abc" "Photosynthesis basics" 0)
        (handlerMain "POST"
          (.fields (some "abc") (some "Photosynthesis basics")) envFull
          (.reply 200 (.parsed (some "## Intro"))) (.netErr "network down")
          true "u" true).2).image_urls = [] ∧
    (runWrites (initialRow "abc" "Photosynthesis basics" 0)
        (handlerMain "POST"
          (.fields (some "abc") (some "Photosynthesis basics")) envFull
          (.reply 200 (.parsed (some "## Intro"))) (.netErr "network down")
          true "u" true).2).quiz_data = [] := by
  exact c4_enrichment_failure_keeps_success "POST" "abc"
    "Photosynthesis basics" "## Intro" "u" envFull 200 0
    (.netErr "network down") true (by decide) (by decide) (by decide)
    (by decide) (by decide) (by decide) (by decide) (by decide) (by decide)
    (by decide)

/-- C5: no partial mandatory-stage content is ever persisted — every
write either carries title, content and `status = generated` together
(the single content point-update) or carries none of them; and a failing
text-generation call leaves the whole row unchanged (in particular its
content fields). -/
theorem c5_atomic_persistence :
    (∀ (m : String) (b : ReqBody) (e : Env) (g : GeminiOutcome)
        (p : PexelsOutcome) (u : Bool) (um : String) (eo : Bool),
      (handlerMain m b e g p u um eo).2.all atomicPatch = true) ∧
    (∀ (m : String) (b : ReqBody) (e : Env) (g : GeminiOutcome)
        (u : Bool) (um : String) (eo : Bool),
      (handlerAlt m b e g u um eo).2.all atomicPatch = true) ∧
    (∀ (m : String) (b : ReqBody) (e : Env) (g : GeminiOutcome)
        (p : PexelsOutcome) (u : Bool) (um : String) (eo : Bool)
        (r : LessonRow), geminiFails g = true →
      runWrites r (handlerMain m b e g p u um eo).2 = r) ∧
    (∀ (m : String) (b : ReqBody) (e : Env) (g : GeminiOutcome)
        (u : Bool) (um : String) (eo : Bool) (r : LessonRow),
      geminiFails g = true →
      runWrites r (handlerAlt m b e g u um eo).2 = r) := by
  refine ⟨?_, ?_, ?_, ?_⟩
  · intro m b e g p u um eo
    exact (handlerMain_all_writes m b e g p u um eo).1
  · intro m b e g u um eo
    exact (handlerAlt_all_writes m b e g u um eo).1
  · intro m b e g p u um eo r h
    rw [handlerMain_writes_nil_of_geminiFails m b e g p u um eo h]
    rfl
  · intro m b e g u um eo r h
    rw [handlerAlt_writes_nil_of_geminiFails m b e g u um eo h]
    rfl

/-- Witness for C5: atomic writes on a successful run, and an unchanged
row after a rejected text-generation fetch. -/
theorem c5_atomic_persistence_witness :
    (handlerMain "POST"
        (.fields (some "abc") (some "Photosynthesis basics")) envFull
        (.reply 200 (.parsed (some "## Intro"))) (.netErr "x") true "u"
        true).2.all atomicPatch = true ∧
    runWrites (initialRow "abc" "Photosynthesis basics" 0)
        (handlerMain "POST"
          (.fields (some "abc") (some "Photosynthesis basics")) envFull
          (.netErr "connection reset") (.netErr "x") true "u" true).2 =
      initialRow "abc" "Photosynthesis basics" 0 := by
  exact ⟨c5_atomic_persistence.1 "POST"
      (.fields (some "abc") (some "Photosynthesis basics")) envFull
      (.reply 200 (.parsed (some "## Intro"))) (.netErr "x") true "u" true,
    c5_atomic_persistence.2.2.1 "POST"
      (.fields (some "abc") (some "Photosynthesis basics")) envFull
      (.netErr "connection reset") (.netErr "x") true "u" true
      (initialRow "abc" "Photosynthesis basics" 0) (by decide)⟩

/-- C6: a non-preflight request whose `lessonId` or `outline` is missing
or an empty string gets the 400 validation response with the error body,
and neither handler variant performs any store write. -/
theorem c6_validation_rejects_without_write (m : String)
    (lidO outO : Option String) (e : Env) (g : GeminiOutcome)
    (p : PexelsOutcome) (u : Bool) (um : String) (eo : Bool)
    (hm : m ≠ "OPTIONS")
    (h : truthy lidO = false ∨ truthy outO = false) :
    handlerMain m (.fields lidO outO) e g p u um eo =
      (badRequestResp, []) ∧
    handlerAlt m (.fields lidO outO) e g u um eo = (badRequestResp, []) ∧
    badRequestResp.status = 400 ∧
    badRequestResp.body =
      some (.errorMsg "lessonId and outline are required") := by
  have hv : (!truthy lidO || !truthy outO) = true := by
    rcases h with h | h <;> simp [h]
  refine ⟨?_, ?_, rfl, rfl⟩
  · simp [handlerMain, hm, hv]
  · simp [handlerAlt, hm, hv]

/-- Witness for C6 at a request with a missing `lessonId`. -/
theorem c6_validation_rejects_without_write_witness :
    handlerMain "POST" (.fields none (some "Photosynthesis basics"))
        envFull (.netErr "x") (.netErr "x") true "u" true =
      (badRequestResp, []) ∧
    handlerAlt "POST" (.fields none (some "Photosynthesis basics"))
        envFull (.netErr "x") true "u" true = (badRequestResp, []) ∧
    badRequestResp.status = 400 ∧
    badRequestResp.body =
      some (.errorMsg "lessonId and outline are required") := by
  exact c6_validation_rejects_without_write "POST" none
    (some "Photosynthesis basics") envFull (.netErr "x") (.netErr "x")
    true "u" true (by decide) (Or.inl rfl)

/-- C7: with both fields present but no text-generation API key, either
handler variant fails at request time with the 500 configuration-fault
response (and no write); the last two conjuncts show the check runs after
validation — an invalid request still gets 400 even when the key is
missing. -/
theorem c7_missing_key_request_time (m lid out : String) (e : Env)
    (g : GeminiOutcome) (p : PexelsOutcome) (u : Bool) (um : String)
    (eo : Bool) (hm : m ≠ "OPTIONS") (hl : lid ≠ "") (ho : out ≠ "")
    (hk : truthy e.geminiKey = false) :
    handlerMain m (.fields (some lid) (some out)) e g p u um eo =
      (jsonResp 500 (.errorMsg "GEMINI_API_KEY not configured"), []) ∧
    handlerAlt m (.fields (some lid) (some out)) e g u um eo =
      (jsonResp 500 (.errorMsg "GEMINI_API_KEY not configured"), []) ∧
    handlerMain m (.fields (some lid) none) e g p u um eo =
      (badRequestResp, []) ∧
    handlerAlt m (.fields (some lid) none) e g u um eo =
      (badRequestResp, []) := by
  have hv : (!truthy (some lid) || !truthy (some out)) = false := by
    simp [truthy_some_of_ne hl, truthy_some_of_ne ho]
  have hgk : (!truthy e.geminiKey) = true := by simp [hk]
  have hv2 : (!truthy (some lid) || !truthy (none : Option String)) =
      true := by
    simp [truthy]
  refine ⟨?_, ?_, ?_, ?_⟩
  · simp [handlerMain, hm, hv, hgk, catchPath_eq]
  · simp [handlerAlt, hm, hv, hgk, catchPath_eq]
  · simp [handlerMain, hm, hv2]
  · simp [handlerAlt, hm, hv2]

/-- Witness for C7 in the environment missing the Gemini key. -/
theorem c7_missing_key_request_time_witness :
    handlerMain "POST"
        (.fields (some "abc") (some "Photosynthesis basics")) envNoGemini
        (.netErr "x") (.netErr "x") true "u" true =
      (jsonResp 500 (.errorMsg "GEMINI_API_KEY not configured"), []) ∧
    handlerAlt "POST"
        (.fields (some "abc") (some "Photosynthesis basics")) envNoGemini
        (.netErr "x") true "u" true =
      (jsonResp 500 (.errorMsg "GEMINI_API_KEY not configured"), []) ∧
    handlerMain "POST" (.fields (some "abc") none) envNoGemini
        (.netErr "x") (.netErr "x") true "u" true = (badRequestResp, []) ∧
    handlerAlt "POST" (.fields (some "abc") none) envNoGemini
        (.netErr "x") true "u" true = (badRequestResp, []) := by
  exact c7_missing_key_request_time "POST" "abc" "Photosynthesis basics"
    envNoGemini (.netErr "x") (.netErr "x") true "u" true (by decide)
    (by decide) (by decide) (by decide)

/-- C8: every response either handler variant produces carries the three
permissive cross-origin headers, and an `OPTIONS` pre-flight request is
answered immediately — status 200, no body, no store write — regardless
of the body, environment or upstream outcomes (i.e. before validation or
store access). -/
theorem c8_cors_and_preflight :
    (∀ (m : String) (b : ReqBody) (e : Env) (g : GeminiOutcome)
        (p : PexelsOutcome) (u : Bool) (um : String) (eo : Bool),
      hasCors (handlerMain m b e g p u um eo).1 = true) ∧
    (∀ (m : String) (b : ReqBody) (e : Env) (g : GeminiOutcome)
        (u : Bool) (um : String) (eo : Bool),
      hasCors (handlerAlt m b e g u um eo).1 = true) ∧
    (∀ (b : ReqBody) (e : Env) (g : GeminiOutcome) (p : PexelsOutcome)
        (u : Bool) (um : String) (eo : Bool),
      handlerMain "OPTIONS" b e g p u um eo = (preflightResp, [])) ∧
    (∀ (b : ReqBody) (e : Env) (g : GeminiOutcome) (u : Bool)
        (um : String) (eo : Bool),
      handlerAlt "OPTIONS" b e g u um eo = (preflightResp, [])) ∧
    preflightResp.status = 200 ∧ preflightResp.body = none ∧
    hasCors preflightResp = true := by
  refine ⟨handlerMain_hasCors, handlerAlt_hasCors, ?_, ?_, rfl, rfl, rfl⟩
  · intro b e g p u um eo
    simp [handlerMain]
  · intro b e g u um eo
    simp [handlerAlt]

/-- C9: no write of either handler variant carries the `id`, `outline`,
`created_at` (or `quiz_data`) columns, so those fields of any row are
preserved by every execution; and the presentation layer's `fetchLesson`
performs no store write at all. -/
theorem c9_row_identity_frame :
    (∀ (m : String) (b : ReqBody) (e : Env) (g : GeminiOutcome)
        (p : PexelsOutcome) (u : Bool) (um : String) (eo : Bool),
      (handlerMain m b e g p u um eo).2.all framePatch = true) ∧
    (∀ (m : String) (b : ReqBody) (e : Env) (g : GeminiOutcome)
        (u : Bool) (um : String) (eo : Bool),
      (handlerAlt m b e g u um eo).2.all framePatch = true) ∧
    (∀ (m : String) (b : ReqBody) (e : Env) (g : GeminiOutcome)
        (p : PexelsOutcome) (u : Bool) (um : String) (eo : Bool)
        (r : LessonRow),
      (runWrites r (handlerMain m b e g p u um eo).2).id = r.id ∧
      (runWrites r (handlerMain m b e g p u um eo).2).outline =
        r.outline ∧
      (runWrites r (handlerMain m b e g p u um eo).2).created_at =
        r.created_at) ∧
    (∀ (m : String) (b : ReqBody) (e : Env) (g : GeminiOutcome)
        (u : Bool) (um : String) (eo : Bool) (r : LessonRow),
      (runWrites r (handlerAlt m b e g u um eo).2).id = r.id ∧
      (runWrites r (handlerAlt m b e g u um eo).2).outline = r.outline ∧
      (runWrites r (handlerAlt m b e g u um eo).2).created_at =
        r.created_at) ∧
    (∀ d : Except String (Option LessonRow), (fetchLesson d).2 = []) := by
  refine ⟨?_, ?_, ?_, ?_, ?_⟩
  · intro m b e g p u um eo
    exact (handlerMain_all_writes m b e g p u um eo).2.1
  · intro m b e g u um eo
    exact (handlerAlt_all_writes m b e g u um eo).2.1
  · intro m b e g p u um eo r
    have h := runWrites_frame (handlerMain m b e g p u um eo).2
      (handlerMain_all_writes m b e g p u um eo).2.1 r
    exact ⟨h.1, h.2.1, h.2.2.1⟩
  · intro m b e g u um eo r
    have h := runWrites_frame (handlerAlt m b e g u um eo).2
      (handlerAlt_all_writes m b e g u um eo).2.1 r
    exact ⟨h.1, h.2.1, h.2.2.1⟩
  · intro d
    cases d with
    | error msg => rfl
    | ok o => cases o <;> rfl

/-- C10: no code path of either handler variant ever writes the
`quiz_data` column — every write leaves it out, so any row's `quiz_data`
(its empty default in this flow) survives every execution unchanged. -/
theorem c10_quiz_data_never_written :
    (∀ (m : String) (b : ReqBody) (e : Env) (g : GeminiOutcome)
        (p : PexelsOutcome) (u : Bool) (um : String) (eo : Bool),
      (handlerMain m b e g p u um eo).2.all quizUntouched = true) ∧
    (∀ (m : String) (b : ReqBody) (e : Env) (g : GeminiOutcome)
        (u : Bool) (um : String) (eo : Bool),
      (handlerAlt m b e g u um eo).2.all quizUntouched = true) ∧
    (∀ (m : String) (b : ReqBody) (e : Env) (g : GeminiOutcome)
        (p : PexelsOutcome) (u : Bool) (um : String) (eo : Bool)
        (r : LessonRow),
      (runWrites r (handlerMain m b e g p u um eo).2).quiz_data =
        r.quiz_data) ∧
    (∀ (m : String) (b : ReqBody) (e : Env) (g : GeminiOutcome)
        (u : Bool) (um : String) (eo : Bool) (r : LessonRow),
      (runWrites r (handlerAlt m b e g u um eo).2).quiz_data =
        r.quiz_data) := by
  refine ⟨?_, ?_, ?_, ?_⟩
  · intro m b e g p u um eo
    exact (handlerMain_all_writes m b e g p u um eo).2.2
  · intro m b e g u um eo
    exact (handlerAlt_all_writes m b e g u um eo).2.2
  · intro m b e g p u um eo r
    exact (runWrites_frame (handlerMain m b e g p u um eo).2
      (handlerMain_all_writes m b e g p u um eo).2.1 r).2.2.2
  · intro m b e g u um eo r
    exact (runWrites_frame (handlerAlt m b e g u um eo).2
      (handlerAlt_all_writes m b e g u um eo).2.1 r).2.2.2
